import Mathlib

/-!
# Golden Core — verification of the gesture/state/camera pipeline

Shallow embedding of the hand-tracking pipeline of the Golden Core
repository: feature extraction and gesture classification
(`src/components/HandTracker.tsx`, `processResults`), the application
state machine (`src/context/TreeContext.tsx`, `transitionTo`), the
camera rig and blend-parameter smoothing (`MagicTree` / `CameraRig`),
and the particle generator (`generateTreeData` in `src/utils/math.ts`).

JavaScript `number` arithmetic is modelled over `ℚ`; the square root,
sine, cosine and arc-cosine library calls (and `Math.PI`) are abstracted
as function/constant parameters, constrained only by the identities the
proofs need (e.g. the Pythagorean identity), so every definition stays
executable.
-/

namespace GoldenCore

/-- Gesture values of `HandData.gesture` in `TreeContext.tsx`. -/
inductive Gesture where
  | OPEN
  | CLOSED
  | NONE
deriving DecidableEq, Repr

/-- `TreeState` from `TreeContext.tsx`: `'FORMED' | 'CHAOS' | 'FOCUS'`. -/
inductive TreeState where
  | FORMED
  | CHAOS
  | FOCUS
deriving DecidableEq, Repr

open Gesture TreeState

/-- The gesture classifier of `processResults` (HandTracker.tsx lines
153–162): `compactness < 1.4` gives CLOSED, `compactness > 1.6` gives
OPEN, the dead band keeps the previous gesture (`lastGestureRef`). -/
def classify (compactness : ℚ) (prev : Gesture) : Gesture :=
  if compactness < 1.4 then CLOSED
  else if compactness > 1.6 then OPEN
  else prev

/-- Running classification of a sequence of compactness readings: each
output is stored (`lastGestureRef.current`) and becomes the next call's
previous gesture. -/
def classifySeq (prev : Gesture) : List ℚ → List Gesture
  | [] => []
  | c :: cs =>
      let g := classify c prev
      g :: classifySeq g cs

/-- C1: the classifier returns CLOSED whenever `c < 1.4`, OPEN whenever
`c > 1.6`, and in the dead band `[1.4, 1.6]` returns the previous
gesture unchanged (these three cases cover every input, so they fully
determine the function); consequently the reading sequence
`[1.0, 1.5, 1.5, 1.8]` started from NONE classifies to
`[CLOSED, CLOSED, CLOSED, OPEN]`. -/
theorem classify_spec :
    (∀ (c : ℚ) (prev : Gesture),
      (c < 1.4 → classify c prev = CLOSED) ∧
      (c > 1.6 → classify c prev = OPEN) ∧
      (1.4 ≤ c → c ≤ 1.6 → classify c prev = prev)) ∧
    classifySeq NONE [1.0, 1.5, 1.5, 1.8] = [CLOSED, CLOSED, CLOSED, OPEN] := by
  constructor
  · intro c prev
    refine ⟨fun h => ?_, fun h => ?_, fun h1 h2 => ?_⟩
    · simp [classify, h]
    · have : ¬ c < 1.4 := by linarith
      simp [classify, this, h]
    · have hlt : ¬ c < 1.4 := not_lt.mpr h1
      have hgt : ¬ c > 1.6 := not_lt.mpr h2
      simp [classify, hlt, hgt]
  · norm_num [classifySeq, classify]

/-- Witness for `classify_spec` at concrete inputs: `classify 1 NONE`
is CLOSED, `classify 1.7 NONE` is OPEN, `classify 1.5 CLOSED` keeps
CLOSED. -/
theorem classify_spec_witness :
    classify 1 NONE = CLOSED ∧
    classify 1.7 NONE = OPEN ∧
    classify 1.5 CLOSED = CLOSED := by
  refine ⟨(classify_spec.1 1 NONE).1 (by norm_num),
          (classify_spec.1 1.7 NONE).2.1 (by norm_num),
          (classify_spec.1 1.5 CLOSED).2.2 (by norm_num) (by norm_num)⟩

/-- `HandData` from `TreeContext.tsx`: the shared control surface
written by the detection loop (`handDataRef.current`). -/
structure HandData where
  x : ℚ
  y : ℚ
  z : ℚ
  gesture : Gesture
  isPresent : Bool
deriving DecidableEq, Repr

/-- Initial `handDataRef` value from `TreeContext.tsx` lines 26–32. -/
def initHandData : HandData :=
  { x := 0, y := 0, z := 0, gesture := NONE, isPresent := false }

/-- The whole observable system: the shared control surface, the
classifier's stored previous gesture (`lastGestureRef.current` in
`HandTracker.tsx`), and the application state (`activeState` in
`TreeContext.tsx`). -/
structure AppSys where
  hand : HandData
  lastGesture : Gesture
  activeState : TreeState
deriving DecidableEq, Repr

/-- `transitionTo` from `TreeContext.tsx` lines 35–37: it accepts any
`TreeState` and simply replaces the active state with the request. -/
def applyTransition (_cur req : TreeState) : TreeState := req

/-- The transition request logic of `processResults` lines 166–174: a
request is issued only when the new classification differs from the
stored one — FORMED on an edge to CLOSED, CHAOS on an edge to OPEN. -/
def gestureRequest (last g : Gesture) : Option TreeState :=
  if g = last then none
  else
    match g with
    | CLOSED => some FORMED
    | OPEN => some CHAOS
    | NONE => none

/-- Depth mapping of `processResults` line 127:
`zoomFactor = Math.min(Math.max((palmSize - 0.05) * 4.0, 0), 1)`. -/
def zoomFactor (palmSize : ℚ) : ℚ :=
  min (max ((palmSize - 0.05) * 4.0) 0) 1

/-- One present-hand detection tick of `processResults` (lines
112–174), with the raw wrist coordinates, palm size and compactness
taken as inputs (their extraction from landmarks is modelled separately
by `palmSizeOf` and `compactnessE`). The hand record gets the mirrored
position, the zoom factor, the new gesture and `isPresent := true`; the
stored gesture and the application state change only on a gesture
edge, via `gestureRequest` and `applyTransition`. -/
def processPresent (s : AppSys) (rawX rawY palmSize compactness : ℚ) : AppSys :=
  let g := classify compactness s.lastGesture
  let hand1 : HandData :=
    { x := -(rawX - 0.5) * 2
      y := -(rawY - 0.5) * 2
      z := zoomFactor palmSize
      gesture := g
      isPresent := true }
  match gestureRequest s.lastGesture g with
  | none => { hand := hand1, lastGesture := s.lastGesture, activeState := s.activeState }
  | some req => { hand := hand1, lastGesture := g, activeState := applyTransition s.activeState req }

/-- The absent-hand branch of `processResults` (lines 176–178): only
`handDataRef.current.isPresent = false` is written; every other field,
the stored gesture and the application state are untouched. -/
def processAbsent (s : AppSys) : AppSys :=
  { s with hand := { s.hand with isPresent := false } }

/-- One detection tick: `none` models a frame with no hand detected,
`some (rawX, rawY, palmSize, compactness)` a frame with a hand. -/
def detectTick (s : AppSys) : Option (ℚ × ℚ × ℚ × ℚ) → AppSys
  | none => processAbsent s
  | some (rx, ry, p, c) => processPresent s rx ry p c

/-- A session: folding the detection tick over a list of frames. -/
def sessionRun (s : AppSys) (frames : List (Option (ℚ × ℚ × ℚ × ℚ))) : AppSys :=
  frames.foldl detectTick s

/-- C3: the detection step is edge-triggered. If the new classification
equals the stored gesture no transition is requested (and the
application state is unchanged); a FORMED request is issued exactly
when the classification is CLOSED and differs from the stored value,
and a CHAOS request exactly when it is OPEN and differs. -/
theorem edge_triggered :
    ∀ (s : AppSys) (rx ry p c : ℚ),
      (classify c s.lastGesture = s.lastGesture →
        gestureRequest s.lastGesture (classify c s.lastGesture) = none ∧
        (processPresent s rx ry p c).activeState = s.activeState) ∧
      (gestureRequest s.lastGesture (classify c s.lastGesture) = some FORMED ↔
        classify c s.lastGesture = CLOSED ∧ s.lastGesture ≠ CLOSED) ∧
      (gestureRequest s.lastGesture (classify c s.lastGesture) = some CHAOS ↔
        classify c s.lastGesture = OPEN ∧ s.lastGesture ≠ OPEN) := by
  intro s rx ry p c
  refine ⟨fun h => ?_, ?_, ?_⟩
  · have hreq : gestureRequest s.lastGesture (classify c s.lastGesture) = none := by
      simp [gestureRequest, h]
    exact ⟨hreq, by simp [processPresent, hreq]⟩
  · rcases hg : classify c s.lastGesture <;> rcases hl : s.lastGesture <;>
      simp [gestureRequest, hg, hl]
  · rcases hg : classify c s.lastGesture <;> rcases hl : s.lastGesture <;>
      simp [gestureRequest, hg, hl]

/-- Witness for `edge_triggered` at a concrete state and compactness:
from stored gesture NONE with compactness 1, the classification is
CLOSED and a FORMED request is issued. -/
theorem edge_triggered_witness :
    gestureRequest (AppSys.mk initHandData NONE FORMED).lastGesture
        (classify 1 (AppSys.mk initHandData NONE FORMED).lastGesture) = some FORMED :=
  ((edge_triggered (AppSys.mk initHandData NONE FORMED) 0 0 0 1).2.1).mpr
    ⟨by norm_num [classify], by simp⟩

/-- C4: an absent-hand tick only clears `isPresent`: the position,
depth, gesture, stored gesture and application state are all unchanged,
and iterating absent ticks any number of times never changes the
application state or the exposed (stale) gesture; in particular after
ticks with no hand the state stays FORMED if it was FORMED. -/
theorem absent_preserves :
    ∀ (s : AppSys) (n : ℕ),
      (processAbsent s).hand.x = s.hand.x ∧
      (processAbsent s).hand.y = s.hand.y ∧
      (processAbsent s).hand.z = s.hand.z ∧
      (processAbsent s).hand.gesture = s.hand.gesture ∧
      (processAbsent s).hand.isPresent = false ∧
      (processAbsent s).lastGesture = s.lastGesture ∧
      (processAbsent s).activeState = s.activeState ∧
      (processAbsent^[n] s).activeState = s.activeState ∧
      (processAbsent^[n] s).hand.gesture = s.hand.gesture := by
  intro s n
  refine ⟨rfl, rfl, rfl, rfl, rfl, rfl, rfl, ?_, ?_⟩ <;>
  · induction n generalizing s with
    | zero => simp
    | succ k ih =>
        rw [Function.iterate_succ_apply]
        exact ih (processAbsent s)

/-- Witness for `absent_preserves`: ten absent ticks after a CLOSED
gesture leave the application state FORMED and the stale gesture
CLOSED. -/
theorem absent_preserves_witness :
    (processAbsent^[10] (AppSys.mk (HandData.mk 0 0 0 CLOSED true) CLOSED FORMED)).activeState
      = FORMED ∧
    (processAbsent^[10] (AppSys.mk (HandData.mk 0 0 0 CLOSED true) CLOSED FORMED)).hand.gesture
      = CLOSED :=
  ⟨(absent_preserves (AppSys.mk (HandData.mk 0 0 0 CLOSED true) CLOSED FORMED) 10).2.2.2.2.2.2.2.1,
   (absent_preserves (AppSys.mk (HandData.mk 0 0 0 CLOSED true) CLOSED FORMED) 10).2.2.2.2.2.2.2.2⟩

/-- Helper: the classifier never moves a non-NONE previous gesture to
NONE (its CLOSED/OPEN branches are not NONE, and the dead band keeps
the previous value). -/
theorem classify_ne_none (c : ℚ) {g : Gesture} (h : g ≠ NONE) :
    classify c g ≠ NONE := by
  unfold classify
  split_ifs <;> simp [h]

/-- Helper: one detection tick never takes the stored gesture back to
NONE once it is OPEN or CLOSED. -/
theorem detectTick_lastGesture_ne_none (s : AppSys) (f : Option (ℚ × ℚ × ℚ × ℚ))
    (h : s.lastGesture ≠ NONE) : (detectTick s f).lastGesture ≠ NONE := by
  rcases f with _ | ⟨rx, ry, p, c⟩
  · exact h
  · simp only [detectTick, processPresent]
    rcases hreq : gestureRequest s.lastGesture (classify c s.lastGesture) with _ | req <;>
      simp only [hreq]
    · exact h
    · exact classify_ne_none c h

/-- C9: the classifier outputs NONE only when the previous gesture is
NONE and the compactness lies in the dead band `[1.4, 1.6]`; as a
consequence, over any session (any list of detection ticks, hand
present or absent), once the stored gesture is OPEN or CLOSED it never
becomes NONE again. -/
theorem gesture_never_back_to_none :
    (∀ (c : ℚ) (g : Gesture),
      classify c g = NONE → g = NONE ∧ 1.4 ≤ c ∧ c ≤ 1.6) ∧
    (∀ (frames : List (Option (ℚ × ℚ × ℚ × ℚ))) (s : AppSys),
      s.lastGesture ≠ NONE → (sessionRun s frames).lastGesture ≠ NONE) := by
  constructor
  · intro c g h
    unfold classify at h
    split_ifs at h with h1 h2
    · exact ⟨h, by linarith, by linarith⟩
  · intro frames
    induction frames with
    | nil => exact fun s h => h
    | cons f rest ih =>
        intro s h
        exact ih (detectTick s f) (detectTick_lastGesture_ne_none s f h)

/-- Witness for `gesture_never_back_to_none`: a session of a present
frame in the dead band followed by an absent frame, starting from a
stored CLOSED gesture, ends with a non-NONE stored gesture. -/
theorem gesture_never_back_to_none_witness :
    (sessionRun (AppSys.mk initHandData CLOSED FORMED) [some (0, 0, 0.1, 1.5), none]).lastGesture
      ≠ NONE :=
  gesture_never_back_to_none.2 [some (0, 0, 0.1, 1.5), none]
    (AppSys.mk initHandData CLOSED FORMED) (by simp)

/-- The camera preset bundle selected in `CameraRig` (`useFrame`,
part_002 lines 65–102). -/
structure CameraPresets where
  rangeX : ℚ
  rangeY : ℚ
  offsetY : ℚ
  minDist : ℚ
  maxDist : ℚ
deriving DecidableEq, Repr

/-- Preset selection of `CameraRig`: every constant is chosen by
`isChaos = (activeState === 'CHAOS')` — `rangeX` 50 vs 30, `rangeY`
25 vs 15, `offsetY` 2 vs 5, `maxDist` 40 vs 35, `minDist` 12 always. -/
def cameraPresets (st : TreeState) : CameraPresets :=
  let isChaos := st = CHAOS
  { rangeX := if isChaos then 50 else 30
    rangeY := if isChaos then 25 else 15
    offsetY := if isChaos then 2 else 5
    minDist := 12
    maxDist := if isChaos then 40 else 35 }

/-- `THREE.MathUtils.lerp (x, y, t) = (1 - t) * x + t * y` — note the
factor `t` is NOT clamped by the library. -/
def lerp (x y t : ℚ) : ℚ := (1 - t) * x + t * y

/-- The camera target position computed by `CameraRig` for a present
hand: parallax `x·rangeX`, `y·rangeY + offsetY`, and zoom
`lerp maxDist minDist z`. -/
def cameraTarget (st : TreeState) (h : HandData) : ℚ × ℚ × ℚ :=
  let p := cameraPresets st
  (h.x * p.rangeX, h.y * p.rangeY + p.offsetY, lerp p.maxDist p.minDist h.z)

/-- C5: for identical hand input the camera presets are exactly
rangeX 50/30, rangeY 25/15, offsetY 2/5, maxDist 40/35 and minDist 12
for CHAOS versus non-CHAOS states, so the CHAOS ranges strictly widen
relative to FORMED. -/
theorem camera_presets_spec :
    cameraPresets CHAOS = CameraPresets.mk 50 25 2 12 40 ∧
    cameraPresets FORMED = CameraPresets.mk 30 15 5 12 35 ∧
    (cameraPresets FORMED).rangeX < (cameraPresets CHAOS).rangeX ∧
    (cameraPresets FORMED).rangeY < (cameraPresets CHAOS).rangeY ∧
    (cameraPresets FORMED).maxDist < (cameraPresets CHAOS).maxDist ∧
    (cameraPresets FORMED).minDist = (cameraPresets CHAOS).minDist ∧
    (∀ h : HandData, (cameraTarget CHAOS h).1 = h.x * 50 ∧
      (cameraTarget FORMED h).1 = h.x * 30) := by
  have hC : cameraPresets CHAOS = CameraPresets.mk 50 25 2 12 40 := rfl
  have hF : cameraPresets FORMED = CameraPresets.mk 30 15 5 12 35 := rfl
  refine ⟨hC, hF, ?_, ?_, ?_, rfl, fun h => ⟨rfl, rfl⟩⟩ <;> rw [hC, hF] <;> norm_num

/-- Blend target of `MagicTree` (part_002 lines 144–150):
`targetStateValue` is 1.0 when the active state is CHAOS, else 0.0. -/
def blendTarget (st : TreeState) : ℚ :=
  if st = CHAOS then 1.0 else 0.0

/-- One blend-parameter render tick of `MagicTree` (part_002 lines
152–159): `uState = lerp (uState, target, 2.0 * delta)` — the smoothing
factor `2.0 * delta` is passed to the unclamped `THREE.MathUtils.lerp`,
with no `min 1` guard. -/
def blendStep (value target delta : ℚ) : ℚ :=
  lerp value target (2.0 * delta)

/-- C2 (failing-input evaluation): the code's blend update has no
`min(1, ·)` clamp, so with value 0, target 1 (the CHAOS target) and
deltaTime 1 second the smoothing factor is 2 and the updated value is
2, strictly overshooting the target; the next tick brings it back to 0,
i.e. the update oscillates around the target instead of approaching it
monotonically. -/
theorem blend_overshoots :
    blendStep 0 (blendTarget CHAOS) 1 = 2 ∧
    blendTarget CHAOS < blendStep 0 (blendTarget CHAOS) 1 ∧
    blendStep (blendStep 0 (blendTarget CHAOS) 1) (blendTarget CHAOS) 1 = 0 := by
  refine ⟨?_, ?_, ?_⟩ <;> norm_num [blendStep, lerp, blendTarget]

/-- C10: the blend target is 1 iff the state is CHAOS; in every other
state — including the reserved FOCUS state, which is reachable because
`transitionTo` accepts any requested state — the target is 0 and the
camera rig selects the FORMED presets. -/
theorem blend_target_spec :
    (∀ st : TreeState, blendTarget st = 1 ↔ st = CHAOS) ∧
    blendTarget FOCUS = 0 ∧
    blendTarget FORMED = 0 ∧
    cameraPresets FOCUS = cameraPresets FORMED ∧
    (∀ cur : TreeState, applyTransition cur FOCUS = FOCUS) := by
  refine ⟨?_, ?_, ?_, rfl, fun cur => rfl⟩
  · intro st
    rcases st <;> simp [blendTarget] <;> norm_num
  · simp [blendTarget]
    norm_num
  · simp [blendTarget]
    norm_num

/-- Witness for `blend_target_spec`: at FOCUS the target is not 1, at
CHAOS it is, and FOCUS is reached from FORMED by one transition. -/
theorem blend_target_spec_witness :
    ¬ blendTarget FOCUS = 1 ∧ blendTarget CHAOS = 1 ∧
    applyTransition FORMED FOCUS = FOCUS :=
  ⟨fun h => by simpa using (blend_target_spec.1 FOCUS).mp h,
   (blend_target_spec.1 CHAOS).mpr rfl,
   blend_target_spec.2.2.2.2 FORMED⟩

/-- C6: the depth mapping always lies in `[0, 1]`, is 0 for every
palm size at most 0.05, is 1 for every palm size at least 0.3, and is
strictly increasing on the unclamped region `(0.05, 0.3)`. -/
theorem zoomFactor_spec :
    (∀ p : ℚ, 0 ≤ zoomFactor p ∧ zoomFactor p ≤ 1) ∧
    (∀ p : ℚ, p ≤ 0.05 → zoomFactor p = 0) ∧
    (∀ p : ℚ, 0.3 ≤ p → zoomFactor p = 1) ∧
    (∀ p q : ℚ, 0.05 < p → p < q → q < 0.3 → zoomFactor p < zoomFactor q) := by
  refine ⟨fun p => ⟨le_min (le_max_right _ _) zero_le_one, min_le_right _ _⟩,
    fun p hp => ?_, fun p hp => ?_, fun p q hp hpq hq => ?_⟩
  · have h4 : (p - 0.05) * 4.0 ≤ 0 := by nlinarith
    unfold zoomFactor
    rw [max_eq_right h4, min_eq_left (by norm_num : (0:ℚ) ≤ 1)]
  · have h4 : (1:ℚ) ≤ (p - 0.05) * 4.0 := by nlinarith
    unfold zoomFactor
    rw [max_eq_left (by linarith), min_eq_right (by linarith)]
  · have hp4 : (0:ℚ) ≤ (p - 0.05) * 4.0 := by nlinarith
    have hq4 : (q - 0.05) * 4.0 < 1 := by nlinarith
    have hpq4 : (p - 0.05) * 4.0 < (q - 0.05) * 4.0 := by nlinarith
    unfold zoomFactor
    rw [max_eq_left hp4, max_eq_left (by linarith),
      min_eq_left (by linarith), min_eq_left (by linarith)]
    exact hpq4

/-- Witness for `zoomFactor_spec` at concrete palm sizes 0.04, 0.1,
0.2 and 0.5. -/
theorem zoomFactor_spec_witness :
    0 ≤ zoomFactor 0.1 ∧ zoomFactor 0.1 ≤ 1 ∧ zoomFactor 0.04 = 0 ∧
    zoomFactor 0.5 = 1 ∧ zoomFactor 0.1 < zoomFactor 0.2 :=
  ⟨(zoomFactor_spec.1 0.1).1, (zoomFactor_spec.1 0.1).2,
   zoomFactor_spec.2.1 0.04 (by norm_num),
   zoomFactor_spec.2.2.1 0.5 (by norm_num),
   zoomFactor_spec.2.2.2 0.1 0.2 (by norm_num) (by norm_num) (by norm_num)⟩

/-- One 3D hand landmark (`landmarks[i]` has fields `x`, `y`, `z`). -/
structure Landmark where
  x : ℚ
  y : ℚ
  z : ℚ
deriving DecidableEq, Repr

/-- Palm size of `processResults` lines 122–125: the Euclidean distance
between the wrist (landmark 0) and the middle-finger MCP (landmark 9),
with `Math.sqrt` abstracted as the parameter `sqrtF`. -/
def palmSizeOf (sqrtF : ℚ → ℚ) (l : ℕ → Landmark) : ℚ :=
  sqrtF (((l 0).x - (l 9).x) ^ 2 + ((l 0).y - (l 9).y) ^ 2 + ((l 0).z - (l 9).z) ^ 2)

/-- Wrist-to-fingertip distance for one fingertip index (`processResults`
lines 141–149). -/
def tipDist (sqrtF : ℚ → ℚ) (l : ℕ → Landmark) (t : ℕ) : ℚ :=
  sqrtF (((l t).x - (l 0).x) ^ 2 + ((l t).y - (l 0).y) ^ 2 + ((l t).z - (l 0).z) ^ 2)

/-- Average wrist-to-fingertip distance over tips 8, 12, 16, 20
(`avgDist = totalDist / 4`). -/
def avgTipDist (sqrtF : ℚ → ℚ) (l : ℕ → Landmark) : ℚ :=
  (tipDist sqrtF l 8 + tipDist sqrtF l 12 + tipDist sqrtF l 16 + tipDist sqrtF l 20) / 4

/-- Compactness of `processResults` line 151: `avgDist / palmSize`, an
unguarded JavaScript float division. A zero palm size makes the float
quotient non-finite (Infinity or NaN); that non-finite outcome is
modelled as `none`, a finite quotient as `some`. -/
def compactnessE (sqrtF : ℚ → ℚ) (l : ℕ → Landmark) : Option ℚ :=
  if palmSizeOf sqrtF l = 0 then none
  else some (avgTipDist sqrtF l / palmSizeOf sqrtF l)

/-- C8: the compactness division is unguarded, so it is well-defined
(finite) only when the palm size is nonzero; whenever the wrist
(landmark 0) coincides with the middle-finger MCP (landmark 9) the palm
size is `sqrt 0 = 0` and the division-by-zero branch is reached, so the
classifier input is not a finite number. -/
theorem compactness_div_by_zero :
    (∀ (sqrtF : ℚ → ℚ) (l : ℕ → Landmark), sqrtF 0 = 0 → l 0 = l 9 →
      palmSizeOf sqrtF l = 0 ∧ compactnessE sqrtF l = none) ∧
    (∀ (sqrtF : ℚ → ℚ) (l : ℕ → Landmark), palmSizeOf sqrtF l ≠ 0 →
      compactnessE sqrtF l = some (avgTipDist sqrtF l / palmSizeOf sqrtF l)) := by
  constructor
  · intro sqrtF l h0 hcoin
    have hp : palmSizeOf sqrtF l = 0 := by
      unfold palmSizeOf
      rw [hcoin]
      simpa using h0
    exact ⟨hp, by simp [compactnessE, hp]⟩
  · intro sqrtF l hp
    simp [compactnessE, hp]

/-- Witness for `compactness_div_by_zero`: with all landmarks at the
origin (wrist and MCP coincide) and a square root sending 0 to 0, the
compactness is non-finite. -/
theorem compactness_div_by_zero_witness :
    compactnessE (fun _ => 0) (fun _ => Landmark.mk 0 0 0) = none :=
  (compactness_div_by_zero.1 (fun _ => 0) (fun _ => Landmark.mk 0 0 0) rfl rfl).2

/-- Abstraction of the math-library calls used by `generateTreeData`
(`Math.sin`, `Math.cos`, `Math.acos`, `Math.PI`). -/
structure TrigModel where
  sinF : ℚ → ℚ
  cosF : ℚ → ℚ
  acosF : ℚ → ℚ
  piQ : ℚ

/-- The sequence of `Math.random()` draws: call `k` of the generator
run returns `rand k`. Each loop iteration of `generateTreeData` makes
seven draws, in source order: the twinkle offset, `theta`, `v`,
`rSphere`, and the three jitters. -/
def drawsPerParticle : ℕ := 7

/-- The `i`-th sphere point of `generateTreeData` (math.ts lines
22–34): `theta = rand·2π`, `phi = acos (2v - 1)`,
`rSphere = 8 + rand·2`, then the spherical-to-Cartesian conversion. -/
def spherePoint (M : TrigModel) (rand : ℕ → ℚ) (i : ℕ) : ℚ × ℚ × ℚ :=
  let theta := rand (7 * i + 1) * M.piQ * 2
  let v := rand (7 * i + 2)
  let phi := M.acosF (2 * v - 1)
  let rSphere := 8 + rand (7 * i + 3) * 2
  (rSphere * M.sinF phi * M.cosF theta,
   rSphere * M.sinF phi * M.sinF theta,
   rSphere * M.cosF phi)

/-- The `i`-th tree point of `generateTreeData` (math.ts lines 36–90):
the spiral-vine cone with sinusoidal curl and random jitter, for
`count` particles, tree height `treeHeight` and base radius
`treeRadius` (source defaults 15 and 6). -/
def treePoint (M : TrigModel) (rand : ℕ → ℚ) (count : ℕ)
    (treeHeight treeRadius : ℚ) (i : ℕ) : ℚ × ℚ × ℚ :=
  let yPct : ℚ := (i : ℚ) / (count : ℚ)
  let y := (yPct - 0.5) * treeHeight
  let strandId : ℕ := i % 12
  let radiusPct := 1.0 - yPct
  let baseRadius := radiusPct * treeRadius
  let majorAngle := yPct * M.piQ * 2 * 3.0
  let strandOffset := ((strandId : ℚ) / 12) * M.piQ * 2
  let curlFreq := 8.0 + yPct * 4.0
  let curlPhase := (strandId : ℚ) * 135.5
  let rWiggleAmp := 0.8 * radiusPct
  let angleWiggleAmp := 0.4 * radiusPct
  let rWiggle := M.sinF (yPct * M.piQ * 2 * curlFreq + curlPhase) * rWiggleAmp
  let angleWiggle := M.cosF (yPct * M.piQ * 2 * curlFreq + curlPhase) * angleWiggleAmp
  let rFinal := baseRadius + rWiggle
  let thetaFinal := majorAngle + strandOffset + angleWiggle
  let tx := rFinal * M.cosF thetaFinal
  let tz := rFinal * M.sinF thetaFinal
  let jx := (rand (7 * i + 4) - 0.5) * 0.1
  let jy := (rand (7 * i + 5) - 0.5) * 0.1
  let jz := (rand (7 * i + 6) - 0.5) * 0.1
  (tx + jx, y + jy, tz + jz)

/-- Helper: lay out a family of 3D points as a flat coordinate list,
as the generator writes `positions[i3]`, `positions[i3+1]`,
`positions[i3+2]`. -/
def flatten3 (f : ℕ → ℚ × ℚ × ℚ) : List ℕ → List ℚ
  | [] => []
  | i :: rest => (f i).1 :: (f i).2.1 :: (f i).2.2 :: flatten3 f rest

/-- Helper: `flatten3` produces three coordinates per index. -/
theorem flatten3_length (f : ℕ → ℚ × ℚ × ℚ) (l : List ℕ) :
    (flatten3 f l).length = 3 * l.length := by
  induction l with
  | nil => rfl
  | cons i rest ih => simp [flatten3, ih]; ring

/-- The `positionsSphere` array of `generateTreeData`. -/
def positionsSphere (M : TrigModel) (rand : ℕ → ℚ) (count : ℕ) : List ℚ :=
  flatten3 (spherePoint M rand) (List.range count)

/-- The `positionsTree` array of `generateTreeData`. -/
def positionsTree (M : TrigModel) (rand : ℕ → ℚ) (count : ℕ)
    (treeHeight treeRadius : ℚ) : List ℚ :=
  flatten3 (treePoint M rand count treeHeight treeRadius) (List.range count)

/-- The `randoms` array of `generateTreeData` (twinkle offsets). -/
def randomsArr (rand : ℕ → ℚ) (count : ℕ) : List ℚ :=
  (List.range count).map (fun i => rand (7 * i))

/-- `generateTreeData` (math.ts lines 10–98): the triple of the tree
positions, sphere positions and twinkle randoms, with the source's
default `treeHeight = 15` and `treeRadius = 6`. -/
def generateTreeData (M : TrigModel) (rand : ℕ → ℚ) (count : ℕ) :
    List ℚ × List ℚ × List ℚ :=
  (positionsTree M rand count 15 6, positionsSphere M rand count, randomsArr rand count)

/-- Squared Euclidean distance of a 3D point from the origin. -/
def dist2 (p : ℚ × ℚ × ℚ) : ℚ :=
  p.1 ^ 2 + p.2.1 ^ 2 + p.2.2 ^ 2

/-- C7: for every count and every stream of `Math.random()` draws in
`[0, 1)`, `generateTreeData` returns tree and sphere position arrays
each of length `count * 3`, and — for any sine/cosine model satisfying
the Pythagorean identity — every sphere point lies at Euclidean
distance between 8 and 10 from the origin (stated on the squared
distance: `8² ≤ dist2 ≤ 10²`). -/
theorem generateTreeData_spec :
    ∀ (M : TrigModel) (rand : ℕ → ℚ) (count : ℕ),
      (∀ x : ℚ, M.sinF x ^ 2 + M.cosF x ^ 2 = 1) →
      (∀ k : ℕ, 0 ≤ rand k ∧ rand k < 1) →
      (generateTreeData M rand count).1.length = count * 3 ∧
      (generateTreeData M rand count).2.1.length = count * 3 ∧
      (∀ i : ℕ, i < count →
        8 ^ 2 ≤ dist2 (spherePoint M rand i) ∧
        dist2 (spherePoint M rand i) ≤ 10 ^ 2) := by
  intro M rand count hpyth hrand
  refine ⟨?_, ?_, ?_⟩
  · show (positionsTree M rand count 15 6).length = count * 3
    rw [positionsTree, flatten3_length, List.length_range]
    ring
  · show (positionsSphere M rand count).length = count * 3
    rw [positionsSphere, flatten3_length, List.length_range]
    ring
  · intro i _
    set theta := rand (7 * i + 1) * M.piQ * 2 with htheta
    set phi := M.acosF (2 * rand (7 * i + 2) - 1) with hphi
    set r := 8 + rand (7 * i + 3) * 2 with hr
    have hth := hpyth theta
    have hph := hpyth phi
    have hd2 : dist2 (spherePoint M rand i) = r ^ 2 := by
      simp only [dist2, spherePoint, ← htheta, ← hphi, ← hr]
      linear_combination (r ^ 2 * M.sinF phi ^ 2) * hth + r ^ 2 * hph
    have hr8 : (8 : ℚ) ≤ r := by
      have := (hrand (7 * i + 3)).1
      rw [hr]; linarith
    have hr10 : r ≤ 10 := by
      have := (hrand (7 * i + 3)).2
      rw [hr]; linarith
    rw [hd2]
    constructor <;> nlinarith

/-- Witness for `generateTreeData_spec`: one particle, every draw 1/2,
sine constantly 0 and cosine constantly 1 (a valid Pythagorean model):
both position arrays have length 3 and the single sphere point, at
radius 9, has squared distance 81 from the origin. -/
theorem generateTreeData_spec_witness :
    (generateTreeData (TrigModel.mk (fun _ => 0) (fun _ => 1) (fun x => x) 3)
        (fun _ => 1/2) 1).1.length = 1 * 3 ∧
    (generateTreeData (TrigModel.mk (fun _ => 0) (fun _ => 1) (fun x => x) 3)
        (fun _ => 1/2) 1).2.1.length = 1 * 3 ∧
    8 ^ 2 ≤ dist2 (spherePoint (TrigModel.mk (fun _ => 0) (fun _ => 1) (fun x => x) 3)
        (fun _ => 1/2) 0) := by
  have h := generateTreeData_spec (TrigModel.mk (fun _ => 0) (fun _ => 1) (fun x => x) 3)
    (fun _ => 1/2) 1 (fun x => by norm_num) (fun k => by norm_num)
  exact ⟨h.1, h.2.1, (h.2.2 0 (by norm_num)).1⟩

end GoldenCore
